import Mathlib

/-!
Shallow embedding of the resource-resolution and log-extraction core of
src/infrastructure/octopus.py, together with theorems checking the
natural-language specification against it.

Machine strings are embedded as Lean String values; Python string methods
(lower, strip, startswith) are embedded as executable functions over the
character list of a string.  Remote HTTP calls are embedded as function
parameters (the batch-fetch function of a generator, the get-by-id and
listing results of a resolver), and each resolver additionally returns the
list of remote requests it issued, so that request-count properties can be
stated.  Module-level mutable caches are embedded as explicit state passed
in and returned.  Python exceptions are embedded with Except.

Helper functions of this repository that live outside
src/infrastructure/octopus.py (string_to_int, get_item_fuzzy,
normalize_log_step_name, flatten_list) and the external fuzzywuzzy
similarity score are modelled from the specification text; each such
definition carries a doc comment saying so.
-/

/-- One entry of the LogElements list of an activity log node:
a category and a message, from the fields read by get_logs. -/
structure LogLine where
  Category : String
  MessageText : String
deriving DecidableEq

/-- A node of the activity log tree returned by the task details endpoint,
with the four fields read by get_logs: Name, Status, LogElements, Children. -/
inductive LogNode where
  | mk (Name Status : String) (LogElements : List LogLine) (Children : List LogNode)

def LogNode.Name : LogNode → String
  | .mk n _ _ _ => n

def LogNode.Status : LogNode → String
  | .mk _ s _ _ => s

def LogNode.LogElements : LogNode → List LogLine
  | .mk _ _ e _ => e

def LogNode.Children : LogNode → List LogNode
  | .mk _ _ _ c => c

/-- A named resource record returned by the Octopus API.  In the source it
is a JSON dictionary; only the Id and Name fields are read by the
resolution code.  Such a dictionary always has at least these fields, so as
a Python value it is never falsy. -/
structure Resource where
  Id : String
  Name : String
deriving DecidableEq

/-- An HTTP response as seen by handle_response: a status code and a body. -/
structure Response where
  status : Nat
  data : String
deriving DecidableEq

/-- The domain exceptions raised by the embedded code
(domain.exceptions in the source). -/
inductive OctoError where
  | OctopusApiKeyInvalid
  | OctopusRequestFailed (message : String)
  | ResourceNotFound (kind name : String)
  | SpaceNotFound (name : String)
deriving DecidableEq

/-- The observable remote requests a resolver issues: a direct get-by-id,
a listing filtered by a partial name, or an unfiltered listing. -/
inductive ApiRequest where
  | byId (id : String)
  | probe (name : String)
  | listAll
deriving DecidableEq

/-- Embedding of the Python string method startswith, executable over the
character list of a string. -/
def py_startswith (s pre : String) : Bool :=
  pre.data.isPrefixOf s.data

/-- Embedding of the Python string method lower, executable over the
character list of a string. -/
def py_lower (s : String) : String :=
  String.mk (s.data.map Char.toLower)

/-- Embedding of the Python string method strip with no argument:
remove leading and trailing whitespace. -/
def py_strip (s : String) : String :=
  String.mk (((s.data.dropWhile Char.isWhitespace).reverse.dropWhile Char.isWhitespace).reverse)

/-- Modelled from the spec: string_to_int (domain.converters.string_to_int)
is not under src/.  It converts a string to an integer, returning none when
the string is not an integer literal (the Python int constructor wrapped in
a try block). -/
def string_to_int (s : String) : Option Int :=
  match s.data with
  | [] => none
  | '-' :: rest =>
    if rest ≠ [] ∧ rest.all Char.isDigit then
      some (-(rest.foldl (fun acc c => acc * 10 + (c.toNat - 48)) 0 : Nat))
    else none
  | cs =>
    if cs.all Char.isDigit then
      some ((cs.foldl (fun acc c => acc * 10 + (c.toNat - 48)) 0 : Nat))
    else none

/-- Truthiness of a Python value that is either None or an int:
None and 0 are falsy, every other int is truthy. -/
def py_truthy_int : Option Int → Bool
  | none => false
  | some n => n ≠ 0

/-- Modelled from the spec: normalize_log_step_name
(domain.sanitizers.sanitized_list) is not under src/.  The spec describes
the normalized form as case-folded and punctuation-insensitive, so the
model lowercases the string and keeps only letters, digits and spaces. -/
def normalize_log_step_name (s : String) : String :=
  String.mk ((s.data.map Char.toLower).filter (fun c => c.isAlphanum || c = ' '))

/-- Length of a longest common subsequence of two character lists, the
basis of the Levenshtein-ratio-style similarity score, written with
explicit fuel so that it is structurally recursive; the joint length of
the two lists is always enough fuel. -/
def lcs_fuel : Nat → List Char → List Char → Nat
  | 0, _, _ => 0
  | _ + 1, [], _ => 0
  | _ + 1, _ :: _, [] => 0
  | fuel + 1, a :: as, b :: bs =>
    if a = b then lcs_fuel fuel as bs + 1
    else max (lcs_fuel fuel (a :: as) bs) (lcs_fuel fuel as (b :: bs))

/-- Length of a longest common subsequence of two character lists. -/
def lcs (xs ys : List Char) : Nat :=
  lcs_fuel (xs.length + ys.length) xs ys

/-- Modelled from the spec: the similarity score of the external fuzzywuzzy
library (fuzz dot ratio), described by the spec as a Levenshtein-ratio-style
score on a 0 to 100 scale.  The model uses the classic Levenshtein ratio
200 * lcs / (length a + length b), which is the ratio of the
python-Levenshtein backend. -/
def fuzz_score (a b : String) : Nat :=
  if a.data.length + b.data.length = 0 then 100
  else (200 * lcs a.data b.data) / (a.data.length + b.data.length)

/-- Embedding of filter_logs (src/infrastructure/octopus.py, lines
1212 to 1238).  Decides whether a step node satisfies the step filter.
The comprehension guard `if string_to_int(step)` and the two
`any(filter(...))` expressions test Python truthiness, which is made
explicit here: a parsed integer is truthy when nonzero, a string is
truthy when nonempty. -/
def filter_logs (log_item : LogNode) (steps : List String) : Bool :=
  if steps.length = 0 then true
  else
    let step_ints := steps.filter (fun step => py_truthy_int (string_to_int step))
    let found_index := !step_ints.isEmpty &&
      step_ints.any (fun step_int =>
        py_startswith log_item.Name ("Step " ++ step_int) && !(step_int == ""))
    let found_name := steps.any (fun step =>
      decide (80 ≤ fuzz_score (normalize_log_step_name step) (normalize_log_step_name log_item.Name))
        && !(step == ""))
    if found_index = false ∧ found_name = false then false else true

mutual
/-- Embedding of get_logs (src/infrastructure/octopus.py, lines 1187 to
1209).  Walks the activity log tree depth first, emitting the node name
(when include_name is set) and the category-filtered message lines, cutting
the walk below a depth 1 node that does not satisfy the step filter.  The
Python truthiness test `if categories` is embedded as a comparison with the
empty list, and the loop over Children as the mutual helper
get_logs_list. -/
def get_logs (log_item : LogNode) (depth : Nat) (steps : List String)
    (categories : List String) (include_name : Bool) : List String :=
  match log_item with
  | .mk name status elements children =>
    if depth = 0 ∧ elements.length = 0 ∧ children.length = 0 then
      if categories = [] then ["No logs found (status: " ++ status ++ ")."] else []
    else
      let filtered_logs :=
        if categories = [] then elements
        else elements.filter (fun x => categories.contains x.Category)
      let logs := (if include_name then [name] else []) ++ filtered_logs.map (fun e => e.MessageText)
      if depth = 1 ∧ filter_logs (.mk name status elements children) steps = false then logs
      else logs ++ get_logs_list children (depth + 1) steps categories include_name

/-- Embedding of the loop over log_item Children inside get_logs:
concatenates the lines of each child at the given depth, in order. -/
def get_logs_list (children : List LogNode) (depth : Nat) (steps categories : List String)
    (include_name : Bool) : List String :=
  match children with
  | [] => []
  | c :: rest =>
    get_logs c depth steps categories include_name ++
      get_logs_list rest depth steps categories include_name
end

/-- Modelled from the spec: flatten_list (domain.sanitizers.sanitized_list)
is not under src/.  It flattens a sequence of lists into one list. -/
def flatten_list (lists : List (List String)) : List String :=
  lists.flatten

/-- Embedding of activity_logs_to_string (src/infrastructure/octopus.py,
lines 1179 to 1184).  The activity_logs argument is None or a list of root
nodes; the Python truthiness test `if not activity_logs` is false exactly
for None and the empty list. -/
def activity_logs_to_string (activity_logs : Option (List LogNode))
    (sanitized_steps : List String) (categories : List String)
    (join_string : String) (include_name : Bool) : String :=
  match activity_logs with
  | none => ""
  | some [] => ""
  | some logs =>
    String.intercalate join_string
      (flatten_list (logs.map (fun i => get_logs i 0 sanitized_steps categories include_name)))

/-- Embedding of handle_response (src/infrastructure/octopus.py, lines
1241 to 1255).  The callback result is passed directly as the transport
response. -/
def handle_response (response : Response) : Except OctoError Response :=
  if response.status = 401 then Except.error OctoError.OctopusApiKeyInvalid
  else if response.status ≠ 200 ∧ response.status ≠ 201 then
    Except.error (OctoError.OctopusRequestFailed ("Request failed with " ++ response.data))
  else Except.ok response

/-- Lines a single node emits at itself inside get_logs (source lines 1191
to 1199): its Name when include_name is set, then the category-filtered
message texts.  Derived definition used to state the pruning claim. -/
def own_logs (log_item : LogNode) (categories : List String) (include_name : Bool) : List String :=
  match log_item with
  | .mk name _ elements _ =>
    let filtered_logs :=
      if categories = [] then elements
      else elements.filter (fun x => categories.contains x.Category)
    (if include_name then [name] else []) ++ filtered_logs.map (fun e => e.MessageText)

mutual
/-- Lines of an entire subtree with no step pruning at all: the own lines
of the node followed by the lines of all descendants, depth first.
Derived definition used to state the pruning claim. -/
def subtree_logs (log_item : LogNode) (categories : List String) (include_name : Bool) : List String :=
  match log_item with
  | .mk name status elements children =>
    own_logs (.mk name status elements children) categories include_name ++
      subtree_logs_list children categories include_name

/-- Concatenation of subtree_logs over a list of nodes, in order. -/
def subtree_logs_list (children : List LogNode) (categories : List String)
    (include_name : Bool) : List String :=
  match children with
  | [] => []
  | c :: rest =>
    subtree_logs c categories include_name ++ subtree_logs_list rest categories include_name
end

/-- Embedding of the while loop shared by the batch generators
(get_spaces_generator, src/infrastructure/octopus.py lines 148 to 162, and
get_projects_generator, lines 663 to 677, among others): request the batch
at the current skip, yield it, stop if its length differs from take,
otherwise continue at skip + take.  The batch endpoint is the fetch
parameter; the loop is embedded with fuel (the Python loop runs unboundedly)
and also returns the list of skip values requested, in request order. -/
def pages_loop {α : Type} (fetch : Nat → Nat → List α) (take : Nat) :
    Nat → Nat → List α × List Nat
  | 0, _ => ([], [])
  | fuel + 1, skip =>
    let batch := fetch skip take
    if batch.length ≠ take then (batch, [skip])
    else
      let rest := pages_loop fetch take fuel (skip + take)
      (batch ++ rest.1, skip :: rest.2)

/-- Embedding of get_spaces_generator (src/infrastructure/octopus.py,
lines 148 to 162): the pagination loop started at skip 0 with page size 30.
The other generators (projects, environments, tenants, runbooks) differ
only in the batch endpoint, which is the fetch parameter here. -/
def get_spaces_generator {α : Type} (fetch : Nat → Nat → List α) (fuel : Nat) :
    List α × List Nat :=
  pages_loop fetch 30 fuel 0

/-- Modelled from the spec: get_item_fuzzy
(domain.sanitizers.sanitized_list) is not under src/.  Per the spec, it
selects a candidate when exactly one has a name equal to the queried name,
else when exactly one has a name equal after lowercasing and trimming, and
otherwise selects nothing. -/
def get_item_fuzzy (items : List Resource) (name : String) : Option Resource :=
  match items.filter (fun item => item.Name == name) with
  | [item] => some item
  | _ =>
    match items.filter (fun item => py_strip (py_lower item.Name) == py_strip (py_lower name)) with
    | [item] => some item
    | _ => none

/-- Embedding of get_space_id_and_name_from_name
(src/infrastructure/octopus.py, lines 95 to 129).  The remote service is
embedded by the get_space parameter (the get-by-id endpoint) and the
list_spaces parameter (the unfiltered space listing); the second component
of the result is the list of remote requests issued. -/
def get_space_id_and_name_from_name (get_space : String → Resource)
    (list_spaces : List Resource) (space_name : String) :
    Except OctoError (String × String) × List ApiRequest :=
  if py_startswith space_name "Spaces-" then
    let space := get_space space_name
    (Except.ok (space.Id, space.Name), [ApiRequest.byId space_name])
  else
    match list_spaces.filter (fun s => s.Name == space_name) with
    | [s] => (Except.ok (s.Id, s.Name), [ApiRequest.listAll])
    | _ =>
      match list_spaces.filter
          (fun s => py_strip (py_lower s.Name) == py_strip (py_lower space_name)) with
      | [s] => (Except.ok (s.Id, s.Name), [ApiRequest.listAll])
      | _ => (Except.error (OctoError.SpaceNotFound space_name), [ApiRequest.listAll])

/-- Embedding of get_project (src/infrastructure/octopus.py, lines 804 to
838).  The remote service is embedded by get_by_id (direct project
endpoint), probe_items (listing filtered by partial name) and all_items
(unfiltered listing); the second component of the result is the list of
remote requests issued. -/
def get_project (get_by_id : String → Resource) (probe_items : String → List Resource)
    (all_items : List Resource) (space_id project_name : String) :
    Except OctoError Resource × List ApiRequest :=
  if py_startswith project_name "Projects-" then
    (Except.ok (get_by_id project_name), [ApiRequest.byId project_name])
  else
    match get_item_fuzzy (probe_items project_name) project_name with
    | some project => (Except.ok project, [ApiRequest.probe project_name])
    | none =>
      match get_item_fuzzy all_items project_name with
      | some project =>
        (Except.ok project, [ApiRequest.probe project_name, ApiRequest.listAll])
      | none =>
        (Except.error (OctoError.ResourceNotFound "Project" project_name),
         [ApiRequest.probe project_name, ApiRequest.listAll])

/-- Embedding of get_environment_fuzzy (src/infrastructure/octopus.py,
lines 1258 to 1273): a partial-name probe, then an unfiltered fallback
listing, each filtered through get_item_fuzzy, with ResourceNotFound when
both tiers select nothing. -/
def get_environment_fuzzy (probe_items : String → List Resource)
    (all_items : List Resource) (space_id environment_name : String) :
    Except OctoError Resource × List ApiRequest :=
  match get_item_fuzzy (probe_items environment_name) environment_name with
  | some environment => (Except.ok environment, [ApiRequest.probe environment_name])
  | none =>
    match get_item_fuzzy all_items environment_name with
    | some environment =>
      (Except.ok environment, [ApiRequest.probe environment_name, ApiRequest.listAll])
    | none =>
      (Except.error (OctoError.ResourceNotFound "Environment" environment_name),
       [ApiRequest.probe environment_name, ApiRequest.listAll])

/-- Embedding of get_project_fuzzy (src/infrastructure/octopus.py, lines
1475 to 1494): same two tiers as get_environment_fuzzy, for projects. -/
def get_project_fuzzy (probe_items : String → List Resource)
    (all_items : List Resource) (space_id project_name : String) :
    Except OctoError Resource × List ApiRequest :=
  match get_item_fuzzy (probe_items project_name) project_name with
  | some project => (Except.ok project, [ApiRequest.probe project_name])
  | none =>
    match get_item_fuzzy all_items project_name with
    | some project =>
      (Except.ok project, [ApiRequest.probe project_name, ApiRequest.listAll])
    | none =>
      (Except.error (OctoError.ResourceNotFound "Project" project_name),
       [ApiRequest.probe project_name, ApiRequest.listAll])

/-- Lookup in a Python dictionary embedded as an association list:
the get method, returning None for a missing key. -/
def dict_get {β : Type} : List (String × β) → String → Option β
  | [], _ => none
  | (k, v) :: rest, key => if k = key then some v else dict_get rest key

/-- Assignment in a Python dictionary embedded as an association list:
replace the value of an existing key or append a new entry. -/
def dict_set {β : Type} : List (String × β) → String → β → List (String × β)
  | [], key, v => [(key, v)]
  | (k, w) :: rest, key, v =>
    if k = key then (k, v) :: rest else (k, w) :: dict_set rest key v

/-- The module-level nested cache dictionaries (environment_cache,
tenant_cache in the source), keyed by Octopus server url, then space id,
then queried name. -/
abbrev ResourceCache := List (String × List (String × List (String × Resource)))

/-- Truthiness of a Python dict lookup result: falsy when the key is
missing or the stored dictionary is empty. -/
def py_truthy_dict {β : Type} : Option (List (String × β)) → Bool
  | none => false
  | some d => !d.isEmpty

/-- Lookup of a cached resource through the three cache levels, as read by
the final return statement of the cached resolvers. -/
def cache_lookup (cache : ResourceCache) (octopus_url space_id name : String) : Option Resource :=
  dict_get ((dict_get ((dict_get cache octopus_url).getD []) space_id).getD []) name

/-- Embedding of the shared body of get_environment_fuzzy_cached
(src/infrastructure/octopus.py, lines 1285 to 1297) and
get_tenant_fuzzy_cached (lines 1334 to 1345), which are textually identical
apart from the cache object and the resolver they call.  The remote
resolver is the resolver parameter, the module-level cache dictionary is
explicit state, and the third component of the result records whether the
resolver was invoked.  The stored values are resource dictionaries with at
least Id and Name fields, hence never falsy in Python, so the innermost
truthiness test `if not cache[url][space].get(name)` is a missing-key
test. -/
def cached_fuzzy_resolve (resolver : String → String → Resource) (cache : ResourceCache)
    (space_id name octopus_url : String) : Resource × ResourceCache × Bool :=
  let cache1 :=
    if py_truthy_dict (dict_get cache octopus_url) = false
    then dict_set cache octopus_url [] else cache
  let lvl2 := (dict_get cache1 octopus_url).getD []
  let cache2 :=
    if py_truthy_dict (dict_get lvl2 space_id) = false
    then dict_set cache1 octopus_url (dict_set lvl2 space_id []) else cache1
  let lvl2b := (dict_get cache2 octopus_url).getD []
  let lvl3 := (dict_get lvl2b space_id).getD []
  match dict_get lvl3 name with
  | some value => (value, cache2, false)
  | none =>
    let value := resolver space_id name
    (value, dict_set cache2 octopus_url (dict_set lvl2b space_id (dict_set lvl3 name value)), true)

/-- Embedding of get_environment_fuzzy_cached
(src/infrastructure/octopus.py, lines 1285 to 1297): the cached resolution
body applied to the environment_cache state and the get_environment_fuzzy
resolver. -/
def get_environment_fuzzy_cached (resolver : String → String → Resource)
    (cache : ResourceCache) (space_id environment_name octopus_url : String) :
    Resource × ResourceCache × Bool :=
  cached_fuzzy_resolve resolver cache space_id environment_name octopus_url

/-- Embedding of get_tenant_fuzzy_cached (src/infrastructure/octopus.py,
lines 1334 to 1345): the cached resolution body applied to the tenant_cache
state and the get_tenant_fuzzy resolver. -/
def get_tenant_fuzzy_cached (resolver : String → String → Resource)
    (cache : ResourceCache) (space_id tenant_name octopus_url : String) :
    Resource × ResourceCache × Bool :=
  cached_fuzzy_resolve resolver cache space_id tenant_name octopus_url

lemma exact_match_to_ci (name : String) (s : Resource) (h : (s.Name == name) = true) :
    (py_strip (py_lower s.Name) == py_strip (py_lower name)) = true := by
  rw [beq_iff_eq] at h ⊢
  rw [h]

lemma filter_length_mono {α : Type} (l : List α) (p q : α → Bool)
    (h : ∀ a, p a = true → q a = true) :
    (l.filter p).length ≤ (l.filter q).length := by
  induction l with
  | nil => simp
  | cons a t ih =>
    by_cases hp : p a = true
    · rw [List.filter_cons_of_pos hp, List.filter_cons_of_pos (h a hp)]
      simpa using ih
    · rw [List.filter_cons_of_neg (by simpa using hp)]
      by_cases hq : q a = true
      · rw [List.filter_cons_of_pos hq]
        exact le_trans ih (by simp)
      · rw [List.filter_cons_of_neg (by simpa using hq)]
        exact ih

lemma get_item_fuzzy_of_no_match (items : List Resource) (name : String)
    (h : ∀ r ∈ items, r.Name ≠ name ∧ py_strip (py_lower r.Name) ≠ py_strip (py_lower name)) :
    get_item_fuzzy items name = none := by
  have h1 : items.filter (fun item => item.Name == name) = [] := by
    rw [List.filter_eq_nil_iff]
    intro r hr
    simpa using (h r hr).1
  have h2 : items.filter (fun item => py_strip (py_lower item.Name) == py_strip (py_lower name)) = [] := by
    rw [List.filter_eq_nil_iff]
    intro r hr
    simpa using (h r hr).2
  simp [get_item_fuzzy, h1, h2]

lemma get_item_fuzzy_of_dup (items : List Resource) (name : String)
    (h : 2 ≤ (items.filter (fun item => item.Name == name)).length) :
    get_item_fuzzy items name = none := by
  have hq : 2 ≤ (items.filter (fun item =>
      py_strip (py_lower item.Name) == py_strip (py_lower name))).length :=
    le_trans h (filter_length_mono items _ _ (fun a => exact_match_to_ci name a))
  rcases he : items.filter (fun item => item.Name == name) with _ | ⟨a, _ | ⟨b, t⟩⟩
  · rw [he] at h; simp at h
  · rw [he] at h; simp at h
  · rcases hc : items.filter (fun item =>
        py_strip (py_lower item.Name) == py_strip (py_lower name)) with _ | ⟨c, _ | ⟨d, u⟩⟩
    · rw [hc] at hq; simp at hq
    · rw [hc] at hq; simp at hq
    · simp [get_item_fuzzy, he, hc]

/-- C5: a queried name that already carries the canonical Id prefix of its
kind (Spaces- for spaces, Projects- for projects) is resolved by exactly
one remote call, a direct get-by-id, with no listing call and no fuzzy
matching. -/
theorem canonical_id_direct_fetch :
    (∀ (get_space : String → Resource) (list_spaces : List Resource) (space_name : String),
      py_startswith space_name "Spaces-" = true →
      get_space_id_and_name_from_name get_space list_spaces space_name =
        (Except.ok ((get_space space_name).Id, (get_space space_name).Name),
         [ApiRequest.byId space_name]))
    ∧ (∀ (get_by_id : String → Resource) (probe_items : String → List Resource)
        (all_items : List Resource) (space_id project_name : String),
      py_startswith project_name "Projects-" = true →
      get_project get_by_id probe_items all_items space_id project_name =
        (Except.ok (get_by_id project_name), [ApiRequest.byId project_name])) := by
  constructor
  · intro get_space list_spaces space_name h
    simp [get_space_id_and_name_from_name, h]
  · intro get_by_id probe_items all_items space_id project_name h
    simp [get_project, h]

/-- C5 witness: canonical ids for a concrete space and a concrete project
are fetched with a single get-by-id request. -/
theorem canonical_id_direct_fetch_witness :
    py_startswith "Spaces-42" "Spaces-" = true ∧
    get_space_id_and_name_from_name (fun _ => ⟨"Spaces-42", "Default"⟩) [] "Spaces-42" =
      (Except.ok ("Spaces-42", "Default"), [ApiRequest.byId "Spaces-42"]) ∧
    get_project (fun _ => ⟨"Projects-7", "Web"⟩) (fun _ => []) [] "Spaces-42" "Projects-7" =
      (Except.ok ⟨"Projects-7", "Web"⟩, [ApiRequest.byId "Projects-7"]) :=
  ⟨by decide,
   canonical_id_direct_fetch.1 (fun _ => ⟨"Spaces-42", "Default"⟩) [] "Spaces-42" (by decide),
   canonical_id_direct_fetch.2 (fun _ => ⟨"Projects-7", "Web"⟩) (fun _ => []) [] "Spaces-42"
     "Projects-7" (by decide)⟩

/-- C6: when no candidate of the partial-name probe and no candidate of the
full unfiltered listing equals the queried name exactly or
case-insensitively after trimming, resolution fails with ResourceNotFound
carrying the resource kind and the queried name, after issuing both
listing requests. -/
theorem resolve_not_found :
    (∀ (probe_items : String → List Resource) (all_items : List Resource)
       (space_id environment_name : String),
      (∀ r ∈ probe_items environment_name, r.Name ≠ environment_name ∧
          py_strip (py_lower r.Name) ≠ py_strip (py_lower environment_name)) →
      (∀ r ∈ all_items, r.Name ≠ environment_name ∧
          py_strip (py_lower r.Name) ≠ py_strip (py_lower environment_name)) →
      get_environment_fuzzy probe_items all_items space_id environment_name =
        (Except.error (OctoError.ResourceNotFound "Environment" environment_name),
         [ApiRequest.probe environment_name, ApiRequest.listAll]))
    ∧ (∀ (probe_items : String → List Resource) (all_items : List Resource)
       (space_id project_name : String),
      (∀ r ∈ probe_items project_name, r.Name ≠ project_name ∧
          py_strip (py_lower r.Name) ≠ py_strip (py_lower project_name)) →
      (∀ r ∈ all_items, r.Name ≠ project_name ∧
          py_strip (py_lower r.Name) ≠ py_strip (py_lower project_name)) →
      get_project_fuzzy probe_items all_items space_id project_name =
        (Except.error (OctoError.ResourceNotFound "Project" project_name),
         [ApiRequest.probe project_name, ApiRequest.listAll])) := by
  constructor
  · intro probe_items all_items space_id environment_name h1 h2
    simp [get_environment_fuzzy, get_item_fuzzy_of_no_match _ _ h1,
      get_item_fuzzy_of_no_match _ _ h2]
  · intro probe_items all_items space_id project_name h1 h2
    simp [get_project_fuzzy, get_item_fuzzy_of_no_match _ _ h1,
      get_item_fuzzy_of_no_match _ _ h2]

/-- C6 witness: a concrete environment lookup with one probe candidate and
one listing candidate, neither matching the queried name, fails with
ResourceNotFound for that name. -/
theorem resolve_not_found_witness :
    get_environment_fuzzy (fun _ => [⟨"Environments-1", "Production"⟩])
        [⟨"Environments-1", "Production"⟩, ⟨"Environments-2", "Test"⟩] "Spaces-1" "Dev" =
      (Except.error (OctoError.ResourceNotFound "Environment" "Dev"),
       [ApiRequest.probe "Dev", ApiRequest.listAll]) :=
  resolve_not_found.1 (fun _ => [⟨"Environments-1", "Production"⟩])
    [⟨"Environments-1", "Production"⟩, ⟨"Environments-2", "Test"⟩] "Spaces-1" "Dev"
    (by decide) (by decide)

/-- C7: when two or more candidates carry exactly the queried name, neither
the single listing tier of the space lookup nor the two tiers of the fuzzy
resolvers select a candidate, because exactly one match is required to
short-circuit, so resolution fails with the not-found error although
resources with that name exist. -/
theorem duplicated_name_not_found :
    (∀ (get_space : String → Resource) (list_spaces : List Resource) (space_name : String),
      py_startswith space_name "Spaces-" = false →
      2 ≤ (list_spaces.filter (fun s => s.Name == space_name)).length →
      get_space_id_and_name_from_name get_space list_spaces space_name =
        (Except.error (OctoError.SpaceNotFound space_name), [ApiRequest.listAll]))
    ∧ (∀ (probe_items : String → List Resource) (all_items : List Resource)
        (space_id environment_name : String),
      2 ≤ ((probe_items environment_name).filter (fun s => s.Name == environment_name)).length →
      2 ≤ (all_items.filter (fun s => s.Name == environment_name)).length →
      get_environment_fuzzy probe_items all_items space_id environment_name =
        (Except.error (OctoError.ResourceNotFound "Environment" environment_name),
         [ApiRequest.probe environment_name, ApiRequest.listAll])) := by
  constructor
  · intro get_space list_spaces space_name hpre h
    have hq : 2 ≤ (list_spaces.filter (fun s =>
        py_strip (py_lower s.Name) == py_strip (py_lower space_name))).length :=
      le_trans h (filter_length_mono list_spaces _ _ (fun a => exact_match_to_ci space_name a))
    rcases he : list_spaces.filter (fun s => s.Name == space_name) with _ | ⟨a, _ | ⟨b, t⟩⟩
    · rw [he] at h; simp at h
    · rw [he] at h; simp at h
    · rcases hc : list_spaces.filter (fun s =>
          py_strip (py_lower s.Name) == py_strip (py_lower space_name)) with _ | ⟨c, _ | ⟨d, u⟩⟩
      · rw [hc] at hq; simp at hq
      · rw [hc] at hq; simp at hq
      · simp [get_space_id_and_name_from_name, hpre, he, hc]
  · intro probe_items all_items space_id environment_name h1 h2
    simp [get_environment_fuzzy, get_item_fuzzy_of_dup _ _ h1, get_item_fuzzy_of_dup _ _ h2]

/-- C7 witness: two spaces and two environments named exactly as queried
make both lookups fail with the not-found error. -/
theorem duplicated_name_not_found_witness :
    get_space_id_and_name_from_name (fun _ => ⟨"Spaces-1", "Dup"⟩)
        [⟨"Spaces-1", "Dup"⟩, ⟨"Spaces-2", "Dup"⟩] "Dup" =
      (Except.error (OctoError.SpaceNotFound "Dup"), [ApiRequest.listAll]) ∧
    get_environment_fuzzy (fun _ => [⟨"Environments-1", "Dup"⟩, ⟨"Environments-2", "Dup"⟩])
        [⟨"Environments-1", "Dup"⟩, ⟨"Environments-2", "Dup"⟩] "Spaces-1" "Dup" =
      (Except.error (OctoError.ResourceNotFound "Environment" "Dup"),
       [ApiRequest.probe "Dup", ApiRequest.listAll]) :=
  ⟨duplicated_name_not_found.1 (fun _ => ⟨"Spaces-1", "Dup"⟩)
      [⟨"Spaces-1", "Dup"⟩, ⟨"Spaces-2", "Dup"⟩] "Dup" (by decide) (by decide),
   duplicated_name_not_found.2 (fun _ => [⟨"Environments-1", "Dup"⟩, ⟨"Environments-2", "Dup"⟩])
      [⟨"Environments-1", "Dup"⟩, ⟨"Environments-2", "Dup"⟩] "Spaces-1" "Dup"
      (by decide) (by decide)⟩

/-- C8: a root node with no log lines and no children renders, at depth 0
and with no category filter, to the single diagnostic line built from its
Status, and renders to the empty sequence when a category filter is
active. -/
theorem degenerate_root_diagnostic (root : LogNode) (steps : List String) (include_name : Bool)
    (helems : root.LogElements = []) (hchild : root.Children = []) :
    (get_logs root 0 steps [] include_name =
      ["No logs found (status: " ++ root.Status ++ ")."])
    ∧ (∀ categories : List String, categories ≠ [] →
        get_logs root 0 steps categories include_name = []) := by
  rcases root with ⟨name, status, elements, children⟩
  simp only [LogNode.LogElements] at helems
  simp only [LogNode.Children] at hchild
  subst helems hchild
  constructor
  · simp [get_logs, LogNode.Status]
  · intro categories hc
    simp [get_logs, hc]

/-- C8 witness: a Failed root with no lines and no children renders to the
single diagnostic line, and to nothing under a category filter. -/
theorem degenerate_root_diagnostic_witness :
    get_logs (.mk "Task" "Failed" [] []) 0 [] [] true = ["No logs found (status: Failed)."]
    ∧ get_logs (.mk "Task" "Failed" [] []) 0 [] ["Error"] true = [] :=
  ⟨((degenerate_root_diagnostic (.mk "Task" "Failed" [] []) [] true rfl rfl).1),
   ((degenerate_root_diagnostic (.mk "Task" "Failed" [] []) [] true rfl rfl).2 ["Error"]
     (by decide))⟩

/-- C9: the response handler classifies status 401 as the invalid-API-key
error regardless of body, every other status that is neither 200 nor 201 as
a request failure carrying the raw body, and statuses 200 and 201 as
success, returning the response unchanged. -/
theorem handle_response_classification (r : Response) :
    (r.status = 401 → handle_response r = Except.error OctoError.OctopusApiKeyInvalid)
    ∧ (r.status ≠ 401 → r.status ≠ 200 → r.status ≠ 201 →
        handle_response r =
          Except.error (OctoError.OctopusRequestFailed ("Request failed with " ++ r.data)))
    ∧ (r.status = 200 ∨ r.status = 201 → handle_response r = Except.ok r) := by
  refine ⟨fun h => ?_, fun h1 h2 h3 => ?_, fun h => ?_⟩
  · simp [handle_response, h]
  · simp [handle_response, h1, h2, h3]
  · rcases h with h | h <;> simp [handle_response, h]

/-- C9 witness: concrete responses with statuses 401, 500 and 200 are
classified as authentication failure, request failure carrying the body,
and success respectively. -/
theorem handle_response_classification_witness :
    handle_response ⟨401, "denied"⟩ = Except.error OctoError.OctopusApiKeyInvalid
    ∧ handle_response ⟨500, "boom"⟩ =
        Except.error (OctoError.OctopusRequestFailed ("Request failed with " ++ "boom"))
    ∧ handle_response ⟨200, "ok"⟩ = Except.ok ⟨200, "ok"⟩ :=
  ⟨(handle_response_classification ⟨401, "denied"⟩).1 rfl,
   (handle_response_classification ⟨500, "boom"⟩).2.1 (by decide) (by decide) (by decide),
   (handle_response_classification ⟨200, "ok"⟩).2.2 (Or.inl rfl)⟩

/-- C10: rendering a log forest that is None or the empty list yields the
empty string for every filter combination and join string, while a present
first root renders to the join of the per-root get_logs sequences, so the
degenerate diagnostic can only come from a present root. -/
theorem empty_activity_logs_render (steps categories : List String) (join_string : String)
    (include_name : Bool) :
    activity_logs_to_string none steps categories join_string include_name = ""
    ∧ activity_logs_to_string (some []) steps categories join_string include_name = ""
    ∧ ∀ (root : LogNode) (rest : List LogNode),
        activity_logs_to_string (some (root :: rest)) steps categories join_string include_name =
          String.intercalate join_string
            (((root :: rest).map (fun i => get_logs i 0 steps categories include_name)).flatten) := by
  refine ⟨rfl, rfl, fun root rest => ?_⟩
  simp [activity_logs_to_string, flatten_list]

mutual
/-- Nodes reached at depth 2 or greater are never pruned: get_logs there
equals the unpruned subtree rendering, whatever the step filter. -/
theorem get_logs_no_pruning (log_item : LogNode) (depth : Nat) (steps categories : List String)
    (include_name : Bool) (hd : 2 ≤ depth) :
    get_logs log_item depth steps categories include_name =
      subtree_logs log_item categories include_name := by
  rcases log_item with ⟨name, status, elements, children⟩
  have d0 : depth ≠ 0 := by omega
  have d1 : depth ≠ 1 := by omega
  rw [get_logs, subtree_logs,
    get_logs_list_no_pruning children (depth + 1) steps categories include_name (by omega)]
  simp [own_logs, d0, d1]

/-- List form of get_logs_no_pruning, over the children of a node. -/
theorem get_logs_list_no_pruning (children : List LogNode) (depth : Nat)
    (steps categories : List String) (include_name : Bool) (hd : 2 ≤ depth) :
    get_logs_list children depth steps categories include_name =
      subtree_logs_list children categories include_name := by
  match children with
  | [] => rw [get_logs_list, subtree_logs_list]
  | c :: rest =>
    rw [get_logs_list, subtree_logs_list,
      get_logs_no_pruning c depth steps categories include_name hd,
      get_logs_list_no_pruning rest depth steps categories include_name hd]
end

/-- C1: under a non-empty step filter, a depth 1 node that does not satisfy
the filter contributes exactly its own emitted lines and none of its
descendants, a depth 1 node that satisfies the filter contributes its
entire subtree, and nodes at depth 2 or greater are never pruned by the
step filter themselves. -/
theorem get_logs_depth_one_pruning (node : LogNode) (steps categories : List String)
    (include_name : Bool) (hs : steps ≠ []) :
    (filter_logs node steps = false →
      get_logs node 1 steps categories include_name = own_logs node categories include_name)
    ∧ (filter_logs node steps = true →
      get_logs node 1 steps categories include_name = subtree_logs node categories include_name)
    ∧ (∀ depth, 2 ≤ depth →
      get_logs node depth steps categories include_name =
        subtree_logs node categories include_name) := by
  refine ⟨fun hf => ?_, fun hf => ?_,
    fun depth hd => get_logs_no_pruning node depth steps categories include_name hd⟩
  · rcases node with ⟨name, status, elements, children⟩
    rw [get_logs]
    simp [own_logs, hf]
  · rcases node with ⟨name, status, elements, children⟩
    rw [get_logs, subtree_logs,
      get_logs_list_no_pruning children 2 steps categories include_name (by omega)]
    simp [own_logs, hf]

/-- C1 witness: with step filter ["1"], the node Step 2 Notify is pruned to
its own lines while the node Step 1 Deploy keeps its whole subtree. -/
theorem get_logs_depth_one_pruning_witness :
    (["1"] ≠ ([] : List String))
    ∧ filter_logs (.mk "Step 2 Notify" "ok" [⟨"stdout", "notice"⟩]
        [.mk "mail" "ok" [⟨"stdout", "sent"⟩] []]) ["1"] = false
    ∧ get_logs (.mk "Step 2 Notify" "ok" [⟨"stdout", "notice"⟩]
        [.mk "mail" "ok" [⟨"stdout", "sent"⟩] []]) 1 ["1"] [] true =
      own_logs (.mk "Step 2 Notify" "ok" [⟨"stdout", "notice"⟩]
        [.mk "mail" "ok" [⟨"stdout", "sent"⟩] []]) [] true
    ∧ filter_logs (.mk "Step 1 Deploy" "ok" [⟨"stdout", "starting"⟩]
        [.mk "docker" "ok" [⟨"stdout", "pulled"⟩] []]) ["1"] = true
    ∧ get_logs (.mk "Step 1 Deploy" "ok" [⟨"stdout", "starting"⟩]
        [.mk "docker" "ok" [⟨"stdout", "pulled"⟩] []]) 1 ["1"] [] true =
      subtree_logs (.mk "Step 1 Deploy" "ok" [⟨"stdout", "starting"⟩]
        [.mk "docker" "ok" [⟨"stdout", "pulled"⟩] []]) [] true :=
  ⟨by decide, by decide,
   (get_logs_depth_one_pruning (.mk "Step 2 Notify" "ok" [⟨"stdout", "notice"⟩]
      [.mk "mail" "ok" [⟨"stdout", "sent"⟩] []]) ["1"] [] true (by decide)).1 (by decide),
   by decide,
   (get_logs_depth_one_pruning (.mk "Step 1 Deploy" "ok" [⟨"stdout", "starting"⟩]
      [.mk "docker" "ok" [⟨"stdout", "pulled"⟩] []]) ["1"] [] true (by decide)).2.1
     (by decide)⟩

lemma pages_loop_concat {α : Type} (fetch : Nat → Nat → List α) (take : Nat) :
    ∀ (k skip fuel : Nat),
      (∀ i, i < k → (fetch (skip + take * i) take).length = take) →
      (fetch (skip + take * k) take).length ≠ take →
      k < fuel →
      pages_loop fetch take fuel skip =
        (((List.range (k + 1)).map (fun i => fetch (skip + take * i) take)).flatten,
         (List.range (k + 1)).map (fun i => skip + take * i)) := by
  intro k
  induction k with
  | zero =>
    intro skip fuel hfull hstop hfuel
    match fuel, hfuel with
    | f + 1, _ =>
      rw [pages_loop]
      simp only [Nat.mul_zero, Nat.add_zero] at hstop
      simp [hstop, List.range_succ]
  | succ k ih =>
    intro skip fuel hfull hstop hfuel
    match fuel, hfuel with
    | f + 1, hf =>
      have hb : (fetch skip take).length = take := by
        have := hfull 0 (by omega)
        simpa using this
      have harg : ∀ i : Nat, skip + take + take * i = skip + take * (i + 1) := by
        intro i
        ring
      have hflat : (List.range (k + 1 + 1)).map (fun i => fetch (skip + take * i) take) =
          fetch skip take ::
            (List.range (k + 1)).map (fun i => fetch (skip + take + take * i) take) := by
        rw [List.range_succ_eq_map]
        simp only [List.map_cons, Nat.mul_zero, Nat.add_zero, List.map_map]
        congr 1
        apply List.map_congr_left
        intro i _
        simp only [Function.comp_apply, Nat.succ_eq_add_one]
        rw [← harg i]
      have hskips : (List.range (k + 1 + 1)).map (fun i => skip + take * i) =
          skip :: (List.range (k + 1)).map (fun i => skip + take + take * i) := by
        rw [List.range_succ_eq_map]
        simp only [List.map_cons, Nat.mul_zero, Nat.add_zero, List.map_map]
        congr 1
        apply List.map_congr_left
        intro i _
        simp only [Function.comp_apply, Nat.succ_eq_add_one]
        rw [← harg i]
      rw [pages_loop]
      simp only [hb, ne_eq, not_true_eq_false, if_false]
      rw [ih (skip + take) f
        (fun i hi => by rw [harg i]; exact hfull (i + 1) (by omega))
        (by rw [harg k]; exact hstop)
        (by omega)]
      rw [hflat, hskips, List.flatten_cons]

/-- C2: the batch generators request pages sequentially from skip 0 with
page size 30, stepping skip by 30, yield the concatenation of the batches
in request order, and stop right after the first batch whose length is not
30; batch sizes 30, 30, 17 give 77 items in exactly 3 requests, and batch
sizes 30, 30, 30, 0 give 90 items in exactly 4 requests. -/
theorem generator_pagination (α : Type) :
    (∀ (fetch : Nat → Nat → List α) (k fuel : Nat),
      (∀ i, i < k → (fetch (30 * i) 30).length = 30) →
      (fetch (30 * k) 30).length ≠ 30 →
      k < fuel →
      get_spaces_generator fetch fuel =
        (((List.range (k + 1)).map (fun i => fetch (30 * i) 30)).flatten,
         (List.range (k + 1)).map (fun i => 30 * i)))
    ∧ (∀ (fetch : Nat → Nat → List α) (fuel : Nat),
      (fetch 0 30).length = 30 → (fetch 30 30).length = 30 → (fetch 60 30).length = 17 →
      2 < fuel →
      (get_spaces_generator fetch fuel).1.length = 77 ∧
        (get_spaces_generator fetch fuel).2 = [0, 30, 60] ∧
        (get_spaces_generator fetch fuel).2.length = 3)
    ∧ (∀ (fetch : Nat → Nat → List α) (fuel : Nat),
      (fetch 0 30).length = 30 → (fetch 30 30).length = 30 → (fetch 60 30).length = 30 →
      (fetch 90 30).length = 0 →
      3 < fuel →
      (get_spaces_generator fetch fuel).1.length = 90 ∧
        (get_spaces_generator fetch fuel).2 = [0, 30, 60, 90] ∧
        (get_spaces_generator fetch fuel).2.length = 4) := by
  have general : ∀ (fetch : Nat → Nat → List α) (k fuel : Nat),
      (∀ i, i < k → (fetch (30 * i) 30).length = 30) →
      (fetch (30 * k) 30).length ≠ 30 →
      k < fuel →
      get_spaces_generator fetch fuel =
        (((List.range (k + 1)).map (fun i => fetch (30 * i) 30)).flatten,
         (List.range (k + 1)).map (fun i => 30 * i)) := by
    intro fetch k fuel hfull hstop hfuel
    rw [get_spaces_generator,
      pages_loop_concat fetch 30 k 0 fuel (by simpa using hfull) (by simpa using hstop) hfuel]
    simp
  refine ⟨general, fun fetch fuel h1 h2 h3 hfuel => ?_, fun fetch fuel h1 h2 h3 h4 hfuel => ?_⟩
  · have heq := general fetch 2 fuel
      (fun i hi => by
        interval_cases i
        · simpa using h1
        · simpa using h2)
      (by rw [show (30 : Nat) * 2 = 60 by norm_num, h3]; omega) hfuel
    rw [heq]
    refine ⟨?_, ?_, ?_⟩
    · simp [List.range_succ, h1, h2, h3]
    · simp [List.range_succ]
    · simp [List.range_succ]
  · have heq := general fetch 3 fuel
      (fun i hi => by
        interval_cases i
        · simpa using h1
        · simpa using h2
        · simpa using h3)
      (by rw [show (30 : Nat) * 3 = 90 by norm_num, h4]; omega) hfuel
    rw [heq]
    refine ⟨?_, ?_, ?_⟩
    · simp [List.range_succ, h1, h2, h3, h4]
    · simp [List.range_succ]
    · simp [List.range_succ]

/-- C2 witness: a concrete batch function whose batches have sizes 30, 30
and 17 yields 77 items in exactly the three requests at skips 0, 30, 60. -/
theorem generator_pagination_witness :
    ((fun skip _ => List.range (min 30 (77 - skip)) : Nat → Nat → List Nat) 0 30).length = 30
    ∧ (get_spaces_generator (fun skip _ => List.range (min 30 (77 - skip)) : Nat → Nat → List Nat)
        4).1.length = 77
    ∧ (get_spaces_generator (fun skip _ => List.range (min 30 (77 - skip)) : Nat → Nat → List Nat)
        4).2 = [0, 30, 60] :=
  ⟨by decide,
   ((generator_pagination Nat).2.1 (fun skip _ => List.range (min 30 (77 - skip))) 4
     (by decide) (by decide) (by decide) (by decide)).1,
   (((generator_pagination Nat).2.1 (fun skip _ => List.range (min 30 (77 - skip))) 4
     (by decide) (by decide) (by decide) (by decide)).2).1⟩

lemma bool_if_not_both (a b : Bool) : (if a = false ∧ b = false then false else true) = (a || b) := by
  cases a <;> cases b <;> simp

lemma bool_nonempty_any (l : List String) (p : String → Bool) :
    (!l.isEmpty && l.any p) = l.any p := by
  cases l <;> simp

lemma py_truthy_int_iff (s : String) :
    py_truthy_int (string_to_int s) = true ↔ ∃ n : Int, string_to_int s = some n ∧ n ≠ 0 := by
  cases h : string_to_int s <;> simp [py_truthy_int, h]

lemma string_to_int_ne_empty (s : String) (n : Int) (h : string_to_int s = some n) : s ≠ "" := by
  intro he
  subst he
  rw [show string_to_int "" = none from rfl] at h
  exact Option.noConfusion h

/-- C3 counterexample: the claim states that the step filter is satisfied
whenever some token parses as an integer and the node Name starts with
Step followed by it, but the comprehension guard drops the token "0"
because the Python int 0 is falsy, so a node named Step 0 Deploy does not
satisfy the filter ["0"] even though "0" parses as the integer 0 and the
Name starts with Step 0. -/
theorem filter_logs_claim_counterexample :
    string_to_int "0" = some 0
    ∧ py_startswith (LogNode.mk "Step 0 Deploy" "Success" [] []).Name ("Step " ++ "0") = true
    ∧ fuzz_score (normalize_log_step_name "0")
        (normalize_log_step_name (LogNode.mk "Step 0 Deploy" "Success" [] []).Name) < 80
    ∧ filter_logs (LogNode.mk "Step 0 Deploy" "Success" [] []) ["0"] = false :=
  ⟨by decide, by decide, by decide, by decide⟩

/-- C3 as amended: with an empty filter every node is satisfied; with a
non-empty filter a node is satisfied exactly when some token parses as a
nonzero integer and the Name starts with Step followed by that token, or
some non-empty token has normalized fuzzy similarity at least 80 against
the normalized Name.  The amendment adds nonzero and non-empty, forced by
Python truthiness tests in the source. -/
theorem filter_logs_matching (node : LogNode) (steps : List String) :
    filter_logs node [] = true
    ∧ (steps ≠ [] →
      (filter_logs node steps = true ↔
        (∃ s ∈ steps, (∃ n : Int, string_to_int s = some n ∧ n ≠ 0) ∧
          py_startswith node.Name ("Step " ++ s) = true)
        ∨ ∃ s ∈ steps, s ≠ "" ∧
            80 ≤ fuzz_score (normalize_log_step_name s) (normalize_log_step_name node.Name))) := by
  refine ⟨rfl, fun hs => ?_⟩
  have hlen : ¬(steps.length = 0) := by simpa [List.length_eq_zero] using hs
  simp only [filter_logs, if_neg hlen, bool_if_not_both, bool_nonempty_any]
  simp only [Bool.or_eq_true, List.any_eq_true, List.mem_filter, Bool.and_eq_true,
    Bool.not_eq_true', beq_eq_false_iff_ne, ne_eq, decide_eq_true_eq]
  constructor
  · rintro (⟨s, ⟨hmem, hq⟩, hp, _⟩ | ⟨s, hmem, hscore, hne⟩)
    · exact Or.inl ⟨s, hmem, (py_truthy_int_iff s).mp hq, hp⟩
    · exact Or.inr ⟨s, hmem, hne, hscore⟩
  · rintro (⟨s, hmem, ⟨n, hn, hnz⟩, hp⟩ | ⟨s, hmem, hne, hscore⟩)
    · exact Or.inl ⟨s, ⟨hmem, (py_truthy_int_iff s).mpr ⟨n, hn, hnz⟩⟩, hp,
        string_to_int_ne_empty s n hn⟩
    · exact Or.inr ⟨s, hmem, hscore, hne⟩

/-- C3 witness: the amended characterization evaluated at the node
Step 2 Notify with the filter ["2"]. -/
theorem filter_logs_matching_witness :
    (["2"] ≠ ([] : List String))
    ∧ (filter_logs (LogNode.mk "Step 2 Notify" "ok" [] []) ["2"] = true ↔
        (∃ s ∈ ["2"], (∃ n : Int, string_to_int s = some n ∧ n ≠ 0) ∧
          py_startswith (LogNode.mk "Step 2 Notify" "ok" [] []).Name ("Step " ++ s) = true)
        ∨ ∃ s ∈ ["2"], s ≠ "" ∧
            80 ≤ fuzz_score (normalize_log_step_name s)
              (normalize_log_step_name (LogNode.mk "Step 2 Notify" "ok" [] []).Name)) :=
  ⟨by decide,
   (filter_logs_matching (LogNode.mk "Step 2 Notify" "ok" [] []) ["2"]).2 (by decide)⟩

lemma dict_get_set_self {β : Type} (d : List (String × β)) (k : String) (v : β) :
    dict_get (dict_set d k v) k = some v := by
  induction d with
  | nil => simp [dict_set, dict_get]
  | cons p t ih =>
    rcases p with ⟨a, w⟩
    by_cases h : a = k
    · simp [dict_set, dict_get, h]
    · simp [dict_set, dict_get, h, ih]

lemma dict_get_nil {β : Type} (k : String) : dict_get ([] : List (String × β)) k = none := rfl

lemma cache_lookup_store (c : ResourceCache) (l2 : List (String × List (String × Resource)))
    (l3 : List (String × Resource)) (octopus_url space_id name : String) (v : Resource) :
    cache_lookup (dict_set c octopus_url (dict_set l2 space_id (dict_set l3 name v)))
      octopus_url space_id name = some v := by
  rw [cache_lookup, dict_get_set_self]
  simp only [Option.getD_some]
  rw [dict_get_set_self]
  simp only [Option.getD_some]
  rw [dict_get_set_self]

lemma cached_fuzzy_resolve_hit (resolver : String → String → Resource) (cache : ResourceCache)
    (space_id name octopus_url : String) (v : Resource)
    (h : cache_lookup cache octopus_url space_id name = some v) :
    cached_fuzzy_resolve resolver cache space_id name octopus_url = (v, cache, false) := by
  rw [cache_lookup] at h
  rcases h1 : dict_get cache octopus_url with _ | l2
  · rw [h1] at h
    simp [dict_get] at h
  · rw [h1] at h
    simp only [Option.getD_some] at h
    rcases h2 : dict_get l2 space_id with _ | l3
    · rw [h2] at h
      simp [dict_get] at h
    · rw [h2] at h
      simp only [Option.getD_some] at h
      rcases l2 with _ | ⟨p, t⟩
      · simp [dict_get] at h2
      · rcases l3 with _ | ⟨q, u⟩
        · simp [dict_get] at h
        · simp [cached_fuzzy_resolve, h1, h2, h, py_truthy_dict]

lemma cached_fuzzy_resolve_miss (resolver : String → String → Resource) (cache : ResourceCache)
    (space_id name octopus_url : String)
    (h : cache_lookup cache octopus_url space_id name = none) :
    (cached_fuzzy_resolve resolver cache space_id name octopus_url).1 = resolver space_id name
    ∧ (cached_fuzzy_resolve resolver cache space_id name octopus_url).2.2 = true
    ∧ cache_lookup (cached_fuzzy_resolve resolver cache space_id name octopus_url).2.1
        octopus_url space_id name = some (resolver space_id name) := by
  rw [cache_lookup] at h
  rcases h1 : dict_get cache octopus_url with _ | l2
  · refine ⟨?_, ?_, ?_⟩ <;>
      simp [cached_fuzzy_resolve, h1, py_truthy_dict, dict_get_set_self, dict_set, dict_get,
        cache_lookup]
  · rw [h1] at h
    simp only [Option.getD_some] at h
    rcases l2 with _ | ⟨p, t⟩
    · refine ⟨?_, ?_, ?_⟩ <;>
        simp [cached_fuzzy_resolve, h1, py_truthy_dict, dict_get_set_self, dict_set, dict_get,
          cache_lookup]
    · rcases h2 : dict_get (p :: t) space_id with _ | l3
      · refine ⟨?_, ?_, ?_⟩ <;>
          simp [cached_fuzzy_resolve, h1, h2, py_truthy_dict, dict_get_set_self, dict_get_nil,
            cache_lookup]
      · rw [h2] at h
        simp only [Option.getD_some] at h
        rcases l3 with _ | ⟨q, u⟩
        · refine ⟨?_, ?_, ?_⟩ <;>
            simp [cached_fuzzy_resolve, h1, h2, py_truthy_dict, dict_get_set_self, dict_get,
              cache_lookup]
        · refine ⟨?_, ?_, ?_⟩ <;>
            simp [cached_fuzzy_resolve, h1, h2, h, py_truthy_dict, dict_get_set_self,
              cache_lookup]

lemma cached_fuzzy_resolve_twice (resolver : String → String → Resource) (cache : ResourceCache)
    (space_id name octopus_url : String) :
    (cached_fuzzy_resolve resolver
        (cached_fuzzy_resolve resolver cache space_id name octopus_url).2.1
        space_id name octopus_url).1 =
      (cached_fuzzy_resolve resolver cache space_id name octopus_url).1
    ∧ (cached_fuzzy_resolve resolver
        (cached_fuzzy_resolve resolver cache space_id name octopus_url).2.1
        space_id name octopus_url).2.2 = false := by
  rcases h : cache_lookup cache octopus_url space_id name with _ | v
  · obtain ⟨e1, e2, e3⟩ := cached_fuzzy_resolve_miss resolver cache space_id name octopus_url h
    have h2 := cached_fuzzy_resolve_hit resolver
      (cached_fuzzy_resolve resolver cache space_id name octopus_url).2.1
      space_id name octopus_url (resolver space_id name) e3
    rw [h2, e1]
    exact ⟨rfl, rfl⟩
  · have h2 := cached_fuzzy_resolve_hit resolver cache space_id name octopus_url v h
    rw [h2]
    simp only
    rw [h2]
    exact ⟨rfl, rfl⟩

/-- C4: for every cache key, a call that misses the cache invokes the
resolver, stores its result under the key, and reports the resolver
invoked; a call that hits returns the stored record with the cache
unchanged and the resolver not invoked; and two successive calls with the
same key return identical records with the second call a pure cache hit.
Stated for both get_environment_fuzzy_cached and get_tenant_fuzzy_cached,
whose bodies are identical. -/
theorem fuzzy_cached_resolution (resolver : String → String → Resource) (cache : ResourceCache)
    (space_id name octopus_url : String) :
    ((cache_lookup cache octopus_url space_id name = none →
      (get_environment_fuzzy_cached resolver cache space_id name octopus_url).1 =
        resolver space_id name
      ∧ (get_environment_fuzzy_cached resolver cache space_id name octopus_url).2.2 = true
      ∧ cache_lookup (get_environment_fuzzy_cached resolver cache space_id name octopus_url).2.1
          octopus_url space_id name = some (resolver space_id name))
    ∧ (∀ v, cache_lookup cache octopus_url space_id name = some v →
      get_environment_fuzzy_cached resolver cache space_id name octopus_url = (v, cache, false))
    ∧ (get_environment_fuzzy_cached resolver
        (get_environment_fuzzy_cached resolver cache space_id name octopus_url).2.1
        space_id name octopus_url).1 =
        (get_environment_fuzzy_cached resolver cache space_id name octopus_url).1
    ∧ (get_environment_fuzzy_cached resolver
        (get_environment_fuzzy_cached resolver cache space_id name octopus_url).2.1
        space_id name octopus_url).2.2 = false)
    ∧ ((cache_lookup cache octopus_url space_id name = none →
      (get_tenant_fuzzy_cached resolver cache space_id name octopus_url).1 =
        resolver space_id name
      ∧ (get_tenant_fuzzy_cached resolver cache space_id name octopus_url).2.2 = true
      ∧ cache_lookup (get_tenant_fuzzy_cached resolver cache space_id name octopus_url).2.1
          octopus_url space_id name = some (resolver space_id name))
    ∧ (∀ v, cache_lookup cache octopus_url space_id name = some v →
      get_tenant_fuzzy_cached resolver cache space_id name octopus_url = (v, cache, false))
    ∧ (get_tenant_fuzzy_cached resolver
        (get_tenant_fuzzy_cached resolver cache space_id name octopus_url).2.1
        space_id name octopus_url).1 =
        (get_tenant_fuzzy_cached resolver cache space_id name octopus_url).1
    ∧ (get_tenant_fuzzy_cached resolver
        (get_tenant_fuzzy_cached resolver cache space_id name octopus_url).2.1
        space_id name octopus_url).2.2 = false) := by
  simp only [get_environment_fuzzy_cached, get_tenant_fuzzy_cached]
  refine ⟨⟨?_, ?_, ?_, ?_⟩, ⟨?_, ?_, ?_, ?_⟩⟩
  · exact fun h => cached_fuzzy_resolve_miss resolver cache space_id name octopus_url h
  · exact fun v h => cached_fuzzy_resolve_hit resolver cache space_id name octopus_url v h
  · exact (cached_fuzzy_resolve_twice resolver cache space_id name octopus_url).1
  · exact (cached_fuzzy_resolve_twice resolver cache space_id name octopus_url).2
  · exact fun h => cached_fuzzy_resolve_miss resolver cache space_id name octopus_url h
  · exact fun v h => cached_fuzzy_resolve_hit resolver cache space_id name octopus_url v h
  · exact (cached_fuzzy_resolve_twice resolver cache space_id name octopus_url).1
  · exact (cached_fuzzy_resolve_twice resolver cache space_id name octopus_url).2

/-- C4 witness: starting from the empty cache, a concrete environment
resolution invokes the resolver once, stores the record, and the stored
record is found under the key. -/
theorem fuzzy_cached_resolution_witness :
    cache_lookup [] "https://example.octopus.app" "Spaces-1" "Dev" = none
    ∧ (get_environment_fuzzy_cached (fun _ n => ⟨"Environments-1", n⟩) [] "Spaces-1" "Dev"
        "https://example.octopus.app").1 = ⟨"Environments-1", "Dev"⟩
    ∧ (get_environment_fuzzy_cached (fun _ n => ⟨"Environments-1", n⟩) [] "Spaces-1" "Dev"
        "https://example.octopus.app").2.2 = true
    ∧ cache_lookup (get_environment_fuzzy_cached (fun _ n => ⟨"Environments-1", n⟩) [] "Spaces-1"
        "Dev" "https://example.octopus.app").2.1 "https://example.octopus.app" "Spaces-1" "Dev" =
      some ⟨"Environments-1", "Dev"⟩ :=
  ⟨rfl,
   ((fuzzy_cached_resolution (fun _ n => ⟨"Environments-1", n⟩) [] "Spaces-1" "Dev"
      "https://example.octopus.app").1.1 rfl).1,
   ((fuzzy_cached_resolution (fun _ n => ⟨"Environments-1", n⟩) [] "Spaces-1" "Dev"
      "https://example.octopus.app").1.1 rfl).2.1,
   ((fuzzy_cached_resolution (fun _ n => ⟨"Environments-1", n⟩) [] "Spaces-1" "Dev"
      "https://example.octopus.app").1.1 rfl).2.2⟩
